import Mathlib

/-!
A shallow embedding of the `aws-app` repository's resource-topology builder
(`src/aws-infra/lib/aws-infra-stack.ts`, the `AwsInfraStack` CDK stack) and
of the backend HTTP handler appended to the same file.

The stack is a declarative builder: its constructor emits a graph of
infrastructure nodes (network, subnets, secret, database, cluster, log
groups, workloads, load-balancer entry point, firewall policy and its
association, security rules, notification topic, alarms, IAM grants).  We
embed each construct call as a Lean definition carrying exactly the
properties the source sets, and the whole constructor as a function
`buildAwsInfraStack` producing the graph.  The availability-zone count is
the builder's parameter (the stack instantiates it at 2, line 42); every
other argument is the literal from the source.

Construction-time validations that happen inside the AWS CDK library
(rather than in this repository's own files) are modelled from the spec and
marked as such in their doc comments.
-/

namespace AwsApp

/-- Subnet kinds used by the stack (`ec2.SubnetType.PUBLIC` and
`ec2.SubnetType.PRIVATE_WITH_EGRESS`, lines 47 and 52). -/
inductive SubnetType where
  | publicSubnet
  | privateWithEgress
deriving DecidableEq

/-- One entry of the `subnetConfiguration` array passed to `ec2.Vpc`
(lines 44-55): a name, a subnet kind and a CIDR prefix length. -/
structure SubnetConfigurationSpec where
  name : String
  subnetType : SubnetType
  cidrMask : Nat
deriving DecidableEq

/-- A subdivision (subnet) node of the emitted graph: its configuration
name, kind, availability-zone index, and address block (first address and
prefix length). -/
structure Subnet where
  name : String
  subnetType : SubnetType
  az : Nat
  cidrStart : Nat
  cidrMask : Nat
deriving DecidableEq

/-- Number of addresses in a block with the given prefix length. -/
def blockSize (mask : Nat) : Nat := 2 ^ (32 - mask)

/-- First address of the VPC's default `10.0.0.0/16` range. -/
def vpcBaseAddress : Nat := 10 * 2 ^ 24

/-- Sequential CIDR allocation of the `ec2.Vpc` construct: one subnet per
configuration entry per availability zone, address blocks carved one after
another (each sized by its own prefix length) starting at `nextAddr`. -/
def allocateSubnets (azCount : Nat) : List SubnetConfigurationSpec → Nat → List Subnet
  | [], _ => []
  | c :: rest, nextAddr =>
      ((List.range azCount).map fun az =>
        { name := c.name, subnetType := c.subnetType, az := az
          cidrStart := nextAddr + az * blockSize c.cidrMask
          cidrMask := c.cidrMask })
      ++ allocateSubnets azCount rest (nextAddr + azCount * blockSize c.cidrMask)

/-- A Network node: the `ec2.Vpc` with its availability-zone count, NAT
gateway count and subdivisions. -/
structure Vpc where
  maxAzs : Nat
  natGateways : Nat
  subnets : List Subnet
deriving DecidableEq

/-- Error message for a network request with no availability zone. -/
def vpcAzError : String := "Vpc needs at least one availability zone"

/-- The `ec2.Vpc` construct call (lines 41-56): spreads one subnet per
configuration entry across `maxAzs` availability zones, allocating
non-overlapping blocks from `10.0.0.0/16`.

The rejection of a zone count below one happens inside the CDK library,
not in this repository's files.  Modelled from the spec: `BuildNetwork`
must fail if `availabilityZoneCount < 1`, before any Network node is
emitted. -/
def buildVpc (maxAzs natGateways : Nat) (configs : List SubnetConfigurationSpec) :
    Except String Vpc :=
  if maxAzs < 1 then
    .error vpcAzError
  else
    .ok { maxAzs := maxAzs, natGateways := natGateways
          subnets := allocateSubnets maxAzs configs vpcBaseAddress }

/-- The literal `subnetConfiguration` array of the stack (lines 44-55):
one public and one private-with-egress entry, both with `cidrMask: 24`. -/
def appVpcSubnetConfiguration : List SubnetConfigurationSpec :=
  [ { name := "Public", subnetType := .publicSubnet, cidrMask := 24 }
  , { name := "Private", subnetType := .privateWithEgress, cidrMask := 24 } ]

/-- Two subnets' address blocks do not overlap. -/
def subnetsDisjoint (s t : Subnet) : Prop :=
  s.cidrStart + blockSize s.cidrMask ≤ t.cidrStart ∨
  t.cidrStart + blockSize t.cidrMask ≤ s.cidrStart

instance (s t : Subnet) : Decidable (subnetsDisjoint s t) := by
  unfold subnetsDisjoint; infer_instance

/-- Every two distinct subdivisions of the list have non-overlapping
address blocks. -/
def subnetsNonOverlapping (l : List Subnet) : Prop :=
  l.Pairwise subnetsDisjoint

/-- Removal policies appearing in the stack (`RemovalPolicy.DESTROY`). -/
inductive RemovalPolicy where
  | destroy
  | retain
deriving DecidableEq

/-- A Credential node: the `secretsManager.Secret` construct (lines 63-69).
`templateFields` are the fixed literal fields of `secretStringTemplate`;
`generateStringKey` names the field whose value is auto-generated — the
graph stores only the field's name, never a value for it. -/
structure SecretNode where
  id : String
  templateFields : List (String × String)
  generateStringKey : String
  excludePunctuation : Bool
deriving DecidableEq

/-- The `DbCredentialsSecret` construct call (lines 63-69). -/
def dbCredentialsSecret : SecretNode :=
  { id := "DbCredentialsSecret"
  , templateFields := [("username", "postgres")]
  , generateStringKey := "password"
  , excludePunctuation := true }

/-- Selection of subnets by kind (`vpcSubnets: { subnetType: ... }`). -/
structure SubnetSelection where
  subnetType : SubnetType
deriving DecidableEq

/-- A Data Store node: the `rds.DatabaseInstance` construct, carrying every
property the source sets (lines 72-88). -/
structure DatabaseInstance where
  id : String
  engine : String
  engineVersion : String
  instanceClass : String
  instanceSize : String
  vpcSubnets : SubnetSelection
  credentialsSecretId : String
  allocatedStorage : Nat
  maxAllocatedStorage : Nat
  databaseName : String
  multiAz : Bool
  publiclyAccessible : Bool
  removalPolicy : RemovalPolicy
  deleteAutomatedBackups : Bool
  backupRetentionDays : Nat
deriving DecidableEq

/-- The `PostgresInstance` construct call (lines 72-88). -/
def postgresInstance : DatabaseInstance :=
  { id := "PostgresInstance"
  , engine := "postgres"
  , engineVersion := "15.12"
  , instanceClass := "t3"
  , instanceSize := "micro"
  , vpcSubnets := { subnetType := .privateWithEgress }
  , credentialsSecretId := "DbCredentialsSecret"
  , allocatedStorage := 20
  , maxAllocatedStorage := 100
  , databaseName := "appdb"
  , multiAz := false
  , publiclyAccessible := false
  , removalPolicy := .destroy
  , deleteAutomatedBackups := true
  , backupRetentionDays := 0 }

/-- A CloudWatch log group node (`logs.LogGroup`, lines 104-114). -/
structure LogGroup where
  id : String
  logGroupName : String
  retentionDays : Nat
  removalPolicy : RemovalPolicy
deriving DecidableEq

/-- A security group node (`ec2.SecurityGroup`, lines 203-207). -/
structure SecurityGroupNode where
  id : String
  description : String
  allowAllOutbound : Bool
deriving DecidableEq

/-- Source of an ingress security rule: either a specific workload handle
(`connections.allowFrom(backendService.service, ...)`) or the unrestricted
IPv4 range (`ec2.Peer.anyIpv4()`). -/
inductive RuleSource where
  | workload (id : String)
  | anyIpv4
deriving DecidableEq

/-- A directional SecurityRule node: target resource, source, protocol,
port and description. -/
structure SecurityRule where
  targetId : String
  source : RuleSource
  protocol : String
  port : Nat
  description : String
deriving DecidableEq

/-- A non-secret environment value as the source writes it: a string
literal, or the resolved database endpoint address / port reference
(`this.database.dbInstanceEndpointAddress` / `...Port`, lines 133-134). -/
inductive PlainValue where
  | lit (s : String)
  | dbEndpointAddress (dbId : String)
  | dbEndpointPort (dbId : String)
deriving DecidableEq

/-- A by-reference secret binding: `ecs.Secret.fromSecretsManager(secret,
fieldName)` (lines 138-139) binds an environment key to a field of a
Credential without materializing the value. -/
structure SecretBinding where
  key : String
  secretId : String
  fieldName : String
deriving DecidableEq

/-- A container specification: image, port, plain environment bindings,
by-reference secret bindings and the log sink. -/
structure ContainerSpec where
  image : String
  containerPort : Option Nat
  environment : List (String × PlainValue)
  secretRefs : List SecretBinding
  logStreamName : String
  logGroupId : String
deriving DecidableEq

/-- How a workload is exposed: load-balanced behind a co-created public
entry point, or standalone with its own placement and security groups. -/
inductive WorkloadKind where
  | loadBalanced (entryPointId : String) (publicLoadBalancer : Bool)
  | standalone (assignPublicIp : Bool) (subnetType : SubnetType)
      (securityGroupIds : List String)
deriving DecidableEq

/-- A Workload node (an ECS Fargate service and its task definition). -/
structure Workload where
  id : String
  clusterId : String
  desiredCount : Nat
  cpu : Nat
  memoryLimitMiB : Nat
  kind : WorkloadKind
  container : ContainerSpec
deriving DecidableEq

/-- A PublicEntryPoint node: the application load balancer fronting a
load-balanced workload. -/
structure EntryPoint where
  id : String
  targetWorkloadId : String
deriving DecidableEq

/-- `ecsPatterns.ApplicationLoadBalancedFargateService` (lines 121-146):
one construct call co-creates the Fargate service workload and its public
load-balancer entry point as a pair, each naming the other. -/
def applicationLoadBalancedFargateService (id clusterId : String)
    (desiredCount cpu memoryLimitMiB : Nat) (publicLoadBalancer : Bool)
    (container : ContainerSpec) : Workload × EntryPoint :=
  ( { id := id, clusterId := clusterId, desiredCount := desiredCount
    , cpu := cpu, memoryLimitMiB := memoryLimitMiB
    , kind := .loadBalanced (id ++ "LB") publicLoadBalancer
    , container := container }
  , { id := id ++ "LB", targetWorkloadId := id } )

/-- A FirewallPolicy node: the `wafv2.CfnWebACL` construct (lines 165-191)
with its default action, scope and ordered managed rule-group names. -/
structure FirewallPolicy where
  id : String
  defaultActionAllow : Bool
  scopeRegional : Bool
  ruleGroupNames : List String
deriving DecidableEq

/-- The `BackendWafAcl` construct call (lines 165-191). -/
def backendWafAcl : FirewallPolicy :=
  { id := "BackendWafAcl"
  , defaultActionAllow := true
  , scopeRegional := true
  , ruleGroupNames := ["AWSManagedRulesCommonRuleSet"] }

/-- A binding of a FirewallPolicy to a public entry point
(`wafv2.CfnWebACLAssociation`, lines 194-197). -/
structure FirewallAssociation where
  resourceId : String
  policyId : String
deriving DecidableEq

/-- A NotificationTarget node: the `sns.Topic` with its email subscribers
(lines 252-257). -/
structure NotificationTarget where
  id : String
  displayName : String
  subscriberEmails : List String
deriving DecidableEq

/-- Metric sources used by the stack's alarms: a workload's CPU metric
(line 262) or the database's CPU metric (line 280). -/
inductive MetricSource where
  | workloadCpu (workloadId : String)
  | databaseCpu (dbId : String)
deriving DecidableEq

/-- Comparison operators used by the stack
(`cw.ComparisonOperator.GREATER_THAN_THRESHOLD`). -/
inductive Comparison where
  | greaterThanThreshold
deriving DecidableEq

/-- The properties of a `cw.Alarm` construct call as the source writes them
(lines 260-271 and 278-289). -/
structure AlarmProps where
  metricSource : MetricSource
  periodMinutes : Nat
  threshold : Nat
  evaluationPeriods : Nat
  datapointsToAlarm : Nat
  comparisonOperator : Comparison
  alarmName : String
  alarmDescription : String
deriving DecidableEq

/-- An Alarm node: its construction properties plus the notification
targets attached with `addAlarmAction`. -/
structure Alarm where
  props : AlarmProps
  actionTopicIds : List String
deriving DecidableEq

/-- Error message for an alarm whose breach count exceeds its evaluation
window. -/
def alarmDatapointsError : String :=
  "datapointsToAlarm must be less than or equal to evaluationPeriods"

/-- The `cw.Alarm` constructor.  The repository only constructs alarms with
`datapointsToAlarm = evaluationPeriods = 2`; the rejection of a breach
count above the evaluation window happens inside the CDK library, not in
this repository's files.  Modelled from the spec: `datapointsToAlarm` must
be ≤ `evaluationPeriods`, and violating this is a construction-time
validation error. -/
def createAlarm (p : AlarmProps) : Except String Alarm :=
  if p.evaluationPeriods < p.datapointsToAlarm then
    .error alarmDatapointsError
  else
    .ok { props := p, actionTopicIds := [] }

/-- `alarm.addAlarmAction({... topicArn})` (lines 273-275 and 292-294):
attaches a notification target to an alarm. -/
def addAlarmAction (a : Alarm) (topicId : String) : Alarm :=
  { a with actionTopicIds := a.actionTopicIds ++ [topicId] }

/-- An image-pull permission grant: a managed policy attached to a task
execution role (`obtainExecutionRole().addManagedPolicy(...)`). -/
structure Grant where
  roleId : String
  policyName : String
deriving DecidableEq

/-- `GrantImagePull`: attach the `AmazonEC2ContainerRegistryReadOnly`
managed policy to a workload's execution role (lines 149-151 and 243-245).
The repository performs one grant per role; the duplicate-grant lookup
happens inside the CDK library, not in this repository's files.  Modelled
from the spec: idempotent by construction — grant lookup before add, so
granting twice to the same identity must not create duplicate grants. -/
def grantImagePull (grants : List Grant) (roleId : String) : List Grant :=
  let g : Grant := { roleId := roleId, policyName := "AmazonEC2ContainerRegistryReadOnly" }
  if g ∈ grants then grants else grants ++ [g]

/-- The emitted resource graph: one list per node kind. -/
structure Graph where
  vpcs : List Vpc
  secrets : List SecretNode
  databases : List DatabaseInstance
  clusterIds : List String
  logGroups : List LogGroup
  securityGroups : List SecurityGroupNode
  securityRules : List SecurityRule
  workloads : List Workload
  entryPoints : List EntryPoint
  firewallPolicies : List FirewallPolicy
  firewallAssociations : List FirewallAssociation
  notificationTargets : List NotificationTarget
  alarms : List Alarm
  grants : List Grant
deriving DecidableEq

/-- Error message for binding a second firewall policy to an entry point. -/
def firewallAlreadyBoundError : String :=
  "entry point already has a firewall policy bound"

/-- `AttachFirewallPolicy`: bind a firewall policy to a public entry point
(`wafv2.CfnWebACLAssociation`, lines 194-197).  The repository performs
exactly one association; the rejection of a second binding on the same
entry point happens outside this repository's files.  Modelled from the
spec: exactly one FirewallPolicy may ever bind to an entry point, and a
second `AttachFirewallPolicy` call on the same entry point fails. -/
def attachFirewallPolicy (g : Graph) (entryPointId policyId : String) :
    Except String Graph :=
  if g.firewallAssociations.any (fun a => a.resourceId == entryPointId) then
    .error firewallAlreadyBoundError
  else
    .ok { g with firewallAssociations :=
            g.firewallAssociations ++ [{ resourceId := entryPointId, policyId := policyId }] }

/-- The backend container's `taskImageOptions` (lines 128-145): literal
plain environment values (`DB_NAME`, the database's resolved endpoint host
and port) and by-reference secret bindings (`DB_USER`, `DB_PASSWORD`). -/
def backendTaskImageOptions : ContainerSpec :=
  { image := "904907794166.dkr.ecr.eu-north-1.amazonaws.com/backend"
  , containerPort := some 3000
  , environment :=
      [ ("DB_NAME", .lit "appdb")
      , ("DB_HOST", .dbEndpointAddress "PostgresInstance")
      , ("DB_PORT", .dbEndpointPort "PostgresInstance") ]
  , secretRefs :=
      [ { key := "DB_USER", secretId := "DbCredentialsSecret", fieldName := "username" }
      , { key := "DB_PASSWORD", secretId := "DbCredentialsSecret", fieldName := "password" } ]
  , logStreamName := "backend"
  , logGroupId := "BackendLogGroup" }

/-- The frontend container added to `FrontendTaskDef` (lines 223-229). -/
def frontendContainerSpec : ContainerSpec :=
  { image := "904907794166.dkr.ecr.eu-north-1.amazonaws.com/frontend"
  , containerPort := none
  , environment := []
  , secretRefs := []
  , logStreamName := "frontend"
  , logGroupId := "FrontendLogGroup" }

/-- The frontend security group (lines 203-207). -/
def frontendSecurityGroup : SecurityGroupNode :=
  { id := "FrontendSecurityGroup"
  , description := "Allow HTTP access to frontend container"
  , allowAllOutbound := true }

/-- The standalone frontend Fargate service (lines 231-240): public subnet
placement, public IP, custom security group. -/
def frontendService : Workload :=
  { id := "FrontendService"
  , clusterId := "AppCluster"
  , desiredCount := 1
  , cpu := 256
  , memoryLimitMiB := 512
  , kind := .standalone true .publicSubnet ["FrontendSecurityGroup"]
  , container := frontendContainerSpec }

/-- The `BackendService` construct call (lines 121-146): the load-balanced
backend workload and its co-created public entry point. -/
def backendService : Workload × EntryPoint :=
  applicationLoadBalancedFargateService "BackendService" "AppCluster" 1 256 512 true
    backendTaskImageOptions

/-- Properties of the `BackendHighCpu` alarm (lines 260-271). -/
def backendHighCpuProps : AlarmProps :=
  { metricSource := .workloadCpu "BackendService"
  , periodMinutes := 1
  , threshold := 70
  , evaluationPeriods := 2
  , datapointsToAlarm := 2
  , comparisonOperator := .greaterThanThreshold
  , alarmName := "BackendHighCpu"
  , alarmDescription := "CPU usage > 70% on backend" }

/-- Properties of the `RdsHighCpu` alarm (lines 278-289). -/
def rdsHighCpuProps : AlarmProps :=
  { metricSource := .databaseCpu "PostgresInstance"
  , periodMinutes := 1
  , threshold := 70
  , evaluationPeriods := 2
  , datapointsToAlarm := 2
  , comparisonOperator := .greaterThanThreshold
  , alarmName := "RdsHighCpu"
  , alarmDescription := "CPU usage > 70% on RDS" }

/-- The `AwsInfraStack` constructor (lines 33-295), parametrized by the
availability-zone count the network is requested with (the stack
instantiates it at 2, line 42).  Mirrors the source top-down: network,
secret and database, cluster, log groups, load-balanced backend service
with its entry point, image-pull grant, database ingress rule, firewall
policy and its association, frontend security group, rule and service,
frontend image-pull grant, notification topic, two alarms wired to it. -/
def buildAwsInfraStack (azCount : Nat) : Except String Graph :=
  match buildVpc azCount 1 appVpcSubnetConfiguration with
  | .error e => .error e
  | .ok vpc =>
    let g0 : Graph :=
      { vpcs := [vpc]
      , secrets := [dbCredentialsSecret]
      , databases := [postgresInstance]
      , clusterIds := ["AppCluster"]
      , logGroups :=
          [ { id := "BackendLogGroup", logGroupName := "/ecs/backend"
            , retentionDays := 7, removalPolicy := .destroy }
          , { id := "FrontendLogGroup", logGroupName := "/ecs/frontend"
            , retentionDays := 7, removalPolicy := .destroy } ]
      , securityGroups := [frontendSecurityGroup]
      , securityRules :=
          [ { targetId := "PostgresInstance"
            , source := .workload "BackendService"
            , protocol := "tcp", port := 5432
            , description := "Allow backend ECS tasks to connect to PostgresSQL" }
          , { targetId := "FrontendSecurityGroup"
            , source := .anyIpv4
            , protocol := "tcp", port := 80
            , description := "Allow HTTP from public" } ]
      , workloads := [backendService.1, frontendService]
      , entryPoints := [backendService.2]
      , firewallPolicies := [backendWafAcl]
      , firewallAssociations := []
      , notificationTargets :=
          [ { id := "AlarmTopic", displayName := "Infra Alarms Topic"
            , subscriberEmails := ["serhii.slavita@icloud.com"] } ]
      , alarms := []
      , grants := grantImagePull (grantImagePull [] "BackendServiceExecutionRole")
          "FrontendTaskDefExecutionRole" }
    match attachFirewallPolicy g0 "BackendServiceLB" "BackendWafAcl" with
    | .error e => .error e
    | .ok g1 =>
      match createAlarm backendHighCpuProps, createAlarm rdsHighCpuProps with
      | .error e, _ => .error e
      | _, .error e => .error e
      | .ok a1, .ok a2 =>
        .ok { g1 with alarms :=
                [addAlarmAction a1 "AlarmTopic", addAlarmAction a2 "AlarmTopic"] }

/-- The graph emitted by the stack as instantiated by the repository
(`maxAzs: 2`, line 42). -/
def awsInfraGraph : Graph :=
  (buildAwsInfraStack 2).toOption.getD
    { vpcs := [], secrets := [], databases := [], clusterIds := []
    , logGroups := [], securityGroups := [], securityRules := []
    , workloads := [], entryPoints := [], firewallPolicies := []
    , firewallAssociations := [], notificationTargets := [], alarms := []
    , grants := [] }

/-- Outcome of the backend handler's database query (`client.query`,
line 330 of the concatenated source): rows carrying the current time, or a
raised error with a message. -/
inductive DbQueryResult where
  | rows (now : String)
  | failure (message : String)
deriving DecidableEq

/-- An HTTP response of the backend: status code and JSON body rendered as
key/value fields. -/
structure HttpResponse where
  status : Nat
  body : List (String × String)
deriving DecidableEq

/-- The `/api/hello` route handler (lines 328-335 of the concatenated
source): on success responds 200 with `message`/`time`, on a query error
responds 500 with `error`/`detail`. -/
def apiHelloHandler : DbQueryResult → HttpResponse
  | .rows now => { status := 200
                 , body := [("message", "Hello from backend (Node.js)"), ("time", now)] }
  | .failure m => { status := 500
                  , body := [("error", "Database error"), ("detail", m)] }

/-- Every allocated subnet's block lies between the allocation cursor and
the cursor advanced by the total size of all configured blocks across all
availability zones. -/
theorem allocateSubnets_mem_bounds (az : Nat) (cfgs : List SubnetConfigurationSpec) :
    ∀ (next : Nat) (s : Subnet), s ∈ allocateSubnets az cfgs next →
      next ≤ s.cidrStart ∧
      s.cidrStart + blockSize s.cidrMask ≤
        next + az * (cfgs.map (fun c => blockSize c.cidrMask)).sum := by
  induction cfgs with
  | nil => intro next s hs; simp [allocateSubnets] at hs
  | cons c rest ih =>
    intro next s hs
    rw [allocateSubnets, List.mem_append] at hs
    rcases hs with h1 | h2
    · rw [List.mem_map] at h1
      obtain ⟨a, ha, rfl⟩ := h1
      rw [List.mem_range] at ha
      have hmul : (a + 1) * blockSize c.cidrMask ≤ az * blockSize c.cidrMask :=
        Nat.mul_le_mul_right _ ha
      refine ⟨Nat.le_add_right _ _, ?_⟩
      show next + a * blockSize c.cidrMask + blockSize c.cidrMask ≤
        next + az * ((c :: rest).map (fun c => blockSize c.cidrMask)).sum
      calc next + a * blockSize c.cidrMask + blockSize c.cidrMask
          = next + (a + 1) * blockSize c.cidrMask := by ring
        _ ≤ next + az * blockSize c.cidrMask := Nat.add_le_add_left hmul next
        _ ≤ next + (az * blockSize c.cidrMask +
              az * (rest.map (fun c => blockSize c.cidrMask)).sum) := by
            exact Nat.add_le_add_left (Nat.le_add_right _ _) next
        _ = next + az * ((c :: rest).map (fun c => blockSize c.cidrMask)).sum := by
            simp [Nat.mul_add]
    · have hb := ih (next + az * blockSize c.cidrMask) s h2
      refine ⟨le_trans (Nat.le_add_right _ _) hb.1, ?_⟩
      calc s.cidrStart + blockSize s.cidrMask
          ≤ next + az * blockSize c.cidrMask +
              az * (rest.map (fun c => blockSize c.cidrMask)).sum := hb.2
        _ = next + az * ((c :: rest).map (fun c => blockSize c.cidrMask)).sum := by
            simp [Nat.mul_add, Nat.add_assoc]

/-- The allocated subnets come in strictly increasing, non-touching address
order: each block ends at or before the next one starts. -/
theorem allocateSubnets_pairwise (az : Nat) (cfgs : List SubnetConfigurationSpec) :
    ∀ next : Nat, (allocateSubnets az cfgs next).Pairwise
      (fun s t => s.cidrStart + blockSize s.cidrMask ≤ t.cidrStart) := by
  induction cfgs with
  | nil => intro next; simp [allocateSubnets]
  | cons c rest ih =>
    intro next
    rw [allocateSubnets, List.pairwise_append]
    refine ⟨?_, ih _, ?_⟩
    · rw [List.pairwise_map]
      refine List.Pairwise.imp ?_ (List.pairwise_lt_range az)
      intro a b hab
      show next + a * blockSize c.cidrMask + blockSize c.cidrMask ≤
        next + b * blockSize c.cidrMask
      have hmul : (a + 1) * blockSize c.cidrMask ≤ b * blockSize c.cidrMask :=
        Nat.mul_le_mul_right _ hab
      calc next + a * blockSize c.cidrMask + blockSize c.cidrMask
          = next + (a + 1) * blockSize c.cidrMask := by ring
        _ ≤ next + b * blockSize c.cidrMask := Nat.add_le_add_left hmul next
    · intro x hx y hy
      rw [List.mem_map] at hx
      obtain ⟨a, ha, rfl⟩ := hx
      rw [List.mem_range] at ha
      have hyb := (allocateSubnets_mem_bounds az rest _ y hy).1
      show next + a * blockSize c.cidrMask + blockSize c.cidrMask ≤ y.cidrStart
      have hmul : (a + 1) * blockSize c.cidrMask ≤ az * blockSize c.cidrMask :=
        Nat.mul_le_mul_right _ ha
      calc next + a * blockSize c.cidrMask + blockSize c.cidrMask
          = next + (a + 1) * blockSize c.cidrMask := by ring
        _ ≤ next + az * blockSize c.cidrMask := Nat.add_le_add_left hmul next
        _ ≤ y.cidrStart := hyb

/-- With the stack's subnet configuration, exactly one public subnet is
created per availability zone. -/
theorem allocateSubnets_app_public_count (az next : Nat) :
    (allocateSubnets az appVpcSubnetConfiguration next).countP
      (fun s => s.subnetType == .publicSubnet) = az := by
  simp [allocateSubnets, appVpcSubnetConfiguration, List.countP_append, List.countP_map,
    Function.comp_def]

/-- With the stack's subnet configuration, exactly one private subnet is
created per availability zone. -/
theorem allocateSubnets_app_private_count (az next : Nat) :
    (allocateSubnets az appVpcSubnetConfiguration next).countP
      (fun s => s.subnetType == .privateWithEgress) = az := by
  simp [allocateSubnets, appVpcSubnetConfiguration, List.countP_append, List.countP_map,
    Function.comp_def]

/-- With the stack's subnet configuration, every subnet gets the fixed /24
prefix length. -/
theorem allocateSubnets_app_mask (az next : Nat) (s : Subnet)
    (hs : s ∈ allocateSubnets az appVpcSubnetConfiguration next) : s.cidrMask = 24 := by
  simp [allocateSubnets, appVpcSubnetConfiguration] at hs
  rcases hs with ⟨a, ha, rfl⟩ | ⟨a, ha, rfl⟩ <;> rfl

/-- For every accepted availability-zone count, the builder emits the full
graph: the network with its allocated subnets and every other node exactly
as the source constructs it. -/
theorem buildAwsInfraStack_ok (az : Nat) (h : 1 ≤ az) :
    buildAwsInfraStack az = .ok
      { vpcs := [{ maxAzs := az, natGateways := 1
                 , subnets := allocateSubnets az appVpcSubnetConfiguration vpcBaseAddress }]
      , secrets := [dbCredentialsSecret]
      , databases := [postgresInstance]
      , clusterIds := ["AppCluster"]
      , logGroups :=
          [ { id := "BackendLogGroup", logGroupName := "/ecs/backend"
            , retentionDays := 7, removalPolicy := .destroy }
          , { id := "FrontendLogGroup", logGroupName := "/ecs/frontend"
            , retentionDays := 7, removalPolicy := .destroy } ]
      , securityGroups := [frontendSecurityGroup]
      , securityRules :=
          [ { targetId := "PostgresInstance"
            , source := .workload "BackendService"
            , protocol := "tcp", port := 5432
            , description := "Allow backend ECS tasks to connect to PostgresSQL" }
          , { targetId := "FrontendSecurityGroup"
            , source := .anyIpv4
            , protocol := "tcp", port := 80
            , description := "Allow HTTP from public" } ]
      , workloads := [backendService.1, frontendService]
      , entryPoints := [backendService.2]
      , firewallPolicies := [backendWafAcl]
      , firewallAssociations := [{ resourceId := "BackendServiceLB", policyId := "BackendWafAcl" }]
      , notificationTargets :=
          [ { id := "AlarmTopic", displayName := "Infra Alarms Topic"
            , subscriberEmails := ["serhii.slavita@icloud.com"] } ]
      , alarms := [ { props := backendHighCpuProps, actionTopicIds := ["AlarmTopic"] }
                  , { props := rdsHighCpuProps, actionTopicIds := ["AlarmTopic"] } ]
      , grants := [ { roleId := "BackendServiceExecutionRole"
                    , policyName := "AmazonEC2ContainerRegistryReadOnly" }
                  , { roleId := "FrontendTaskDefExecutionRole"
                    , policyName := "AmazonEC2ContainerRegistryReadOnly" } ] } := by
  unfold buildAwsInfraStack buildVpc
  rw [if_neg (by omega)]
  rfl

/-- C1: For every constructed Network the number of private subdivisions
equals the number of public subdivisions equals the requested
availability-zone count; every subdivision's block has the fixed /24
prefix length and the blocks are pairwise non-overlapping.  (Instantiated
at the stack's requested count 2, this gives exactly 2 public and 2
private subnets.) -/
theorem network_subdivision_counts_and_blocks (az : Nat) (h : 1 ≤ az) :
    ∃ g, buildAwsInfraStack az = .ok g ∧
      ∀ v ∈ g.vpcs,
        v.maxAzs = az ∧
        v.subnets.countP (fun s => s.subnetType == .publicSubnet) = az ∧
        v.subnets.countP (fun s => s.subnetType == .privateWithEgress) = az ∧
        (∀ s ∈ v.subnets, s.cidrMask = 24) ∧
        subnetsNonOverlapping v.subnets := by
  refine ⟨_, buildAwsInfraStack_ok az h, ?_⟩
  intro v hv
  rw [List.mem_singleton] at hv
  subst hv
  refine ⟨rfl, allocateSubnets_app_public_count az _,
    allocateSubnets_app_private_count az _,
    fun s hs => allocateSubnets_app_mask az _ s hs, ?_⟩
  exact List.Pairwise.imp (fun hab => Or.inl hab) (allocateSubnets_pairwise az _ _)

/-- C1 witness: at the stack's requested availability-zone count 2 the
emitted network has exactly 2 public and 2 private /24 subdivisions with
non-overlapping blocks. -/
theorem network_subdivision_counts_and_blocks_witness :
    ∃ g, buildAwsInfraStack 2 = .ok g ∧
      ∀ v ∈ g.vpcs,
        v.maxAzs = 2 ∧
        v.subnets.countP (fun s => s.subnetType == .publicSubnet) = 2 ∧
        v.subnets.countP (fun s => s.subnetType == .privateWithEgress) = 2 ∧
        (∀ s ∈ v.subnets, s.cidrMask = 24) ∧
        subnetsNonOverlapping v.subnets :=
  network_subdivision_counts_and_blocks 2 (by decide)

/-- C2: For every availability-zone count the builder accepts, every Data
Store in the emitted graph resolves its public-reachability flag to false
and its placement to the private-with-egress subdivisions, which exist in
the graph's network; no construction path produces a publicly reachable
database. -/
theorem datastore_never_publicly_reachable (az : Nat) (h : 1 ≤ az) :
    ∃ g, buildAwsInfraStack az = .ok g ∧
      ∀ db ∈ g.databases,
        db.publiclyAccessible = false ∧
        db.vpcSubnets.subnetType = .privateWithEgress ∧
        ∀ v ∈ g.vpcs, ∃ s ∈ v.subnets, s.subnetType = db.vpcSubnets.subnetType := by
  refine ⟨_, buildAwsInfraStack_ok az h, ?_⟩
  intro db hdb
  rw [List.mem_singleton] at hdb
  subst hdb
  refine ⟨rfl, rfl, ?_⟩
  intro v hv
  rw [List.mem_singleton] at hv
  subst hv
  have hc := allocateSubnets_app_private_count az vpcBaseAddress
  have hpos : 0 < (allocateSubnets az appVpcSubnetConfiguration vpcBaseAddress).countP
      (fun s => s.subnetType == .privateWithEgress) := by omega
  obtain ⟨s, hs, hst⟩ := List.countP_pos_iff.mp hpos
  exact ⟨s, hs, by simpa using hst⟩

/-- C2 witness: at the stack's requested availability-zone count 2 the
emitted Data Store is not publicly reachable and placed in the private
subdivisions. -/
theorem datastore_never_publicly_reachable_witness :
    ∃ g, buildAwsInfraStack 2 = .ok g ∧
      ∀ db ∈ g.databases,
        db.publiclyAccessible = false ∧
        db.vpcSubnets.subnetType = .privateWithEgress ∧
        ∀ v ∈ g.vpcs, ∃ s ∈ v.subnets, s.subnetType = db.vpcSubnets.subnetType :=
  datastore_never_publicly_reachable 2 (by decide)

/-- C3: In the constructed graph exactly one ingress rule targets the Data
Store: it names the backend workload (not an address range) as source and
permits only TCP port 5432; the filter equality leaves zero rules
permitting any other source to reach the database. -/
theorem database_single_backend_ingress_rule :
    awsInfraGraph.securityRules.filter (fun r => r.targetId == "PostgresInstance") =
      [ { targetId := "PostgresInstance"
        , source := .workload "BackendService"
        , protocol := "tcp", port := 5432
        , description := "Allow backend ECS tasks to connect to PostgresSQL" } ] := by
  decide

/-- C4: the Credential's auto-generated field has no literal value anywhere
in the graph: the secret node's fixed template holds only the username,
the backend's DB_USER/DB_PASSWORD bindings are by-reference bindings to
the Credential's fields, and the plain environment values of every
workload are exactly the resolved non-secret literals DB_NAME, DB_HOST,
DB_PORT (and nothing for the frontend). -/
theorem credential_secret_only_by_reference :
    awsInfraGraph.secrets = [dbCredentialsSecret] ∧
    dbCredentialsSecret.templateFields.lookup dbCredentialsSecret.generateStringKey = none ∧
    backendService.1.container.secretRefs =
      [ { key := "DB_USER", secretId := "DbCredentialsSecret", fieldName := "username" }
      , { key := "DB_PASSWORD", secretId := "DbCredentialsSecret", fieldName := "password" } ] ∧
    awsInfraGraph.workloads.map (fun w => w.container.environment) =
      [ [ ("DB_NAME", .lit "appdb")
        , ("DB_HOST", .dbEndpointAddress "PostgresInstance")
        , ("DB_PORT", .dbEndpointPort "PostgresInstance") ]
      , [] ] := by
  decide

/-- C5: the load-balanced constructor co-creates the workload and its
entry point as a 1:1 pair for every argument list (each names the other);
the emitted graph holds exactly one entry point, targeting the one
load-balanced workload; exactly one firewall association binds to it; and
a second AttachFirewallPolicy call on the same entry point fails for every
policy. -/
theorem entrypoint_one_to_one_single_firewall_policy :
    (∀ id clusterId dc cpu mem pub container,
      (applicationLoadBalancedFargateService id clusterId dc cpu mem pub container).2.targetWorkloadId
        = (applicationLoadBalancedFargateService id clusterId dc cpu mem pub container).1.id ∧
      (applicationLoadBalancedFargateService id clusterId dc cpu mem pub container).1.kind
        = .loadBalanced
            (applicationLoadBalancedFargateService id clusterId dc cpu mem pub container).2.id
            pub) ∧
    awsInfraGraph.entryPoints = [{ id := "BackendServiceLB", targetWorkloadId := "BackendService" }] ∧
    awsInfraGraph.workloads.filter
        (fun w => match w.kind with | .loadBalanced _ _ => true | _ => false)
      = [backendService.1] ∧
    backendService.1.kind = .loadBalanced "BackendServiceLB" true ∧
    awsInfraGraph.firewallAssociations
      = [{ resourceId := "BackendServiceLB", policyId := "BackendWafAcl" }] ∧
    (∀ policyId, attachFirewallPolicy awsInfraGraph "BackendServiceLB" policyId
      = .error firewallAlreadyBoundError) := by
  refine ⟨fun id c dc cpu mem pub cont => ⟨rfl, rfl⟩, by decide, by decide, by decide,
    by decide, ?_⟩
  intro policyId
  unfold attachFirewallPolicy
  have hbound : (awsInfraGraph.firewallAssociations.any
      (fun a => a.resourceId == "BackendServiceLB")) = true := by decide
  rw [hbound]
  rfl

/-- C6: CreateAlarm succeeds exactly when datapointsToAlarm is at most
evaluationPeriods and otherwise fails with a construction-time validation
error; in particular a 3-of-2 call fails while the two alarms the stack
constructs (both 2-of-2) succeed and appear in the emitted graph wired to
the notification topic. -/
theorem alarm_datapoints_validation :
    (∀ p : AlarmProps,
      (∃ a, createAlarm p = .ok a) ↔ p.datapointsToAlarm ≤ p.evaluationPeriods) ∧
    createAlarm { backendHighCpuProps with datapointsToAlarm := 3, evaluationPeriods := 2 }
      = .error alarmDatapointsError ∧
    createAlarm backendHighCpuProps = .ok { props := backendHighCpuProps, actionTopicIds := [] } ∧
    createAlarm rdsHighCpuProps = .ok { props := rdsHighCpuProps, actionTopicIds := [] } ∧
    awsInfraGraph.alarms =
      [ { props := backendHighCpuProps, actionTopicIds := ["AlarmTopic"] }
      , { props := rdsHighCpuProps, actionTopicIds := ["AlarmTopic"] } ] := by
  refine ⟨?_, rfl, rfl, rfl, by decide⟩
  intro p
  constructor
  · rintro ⟨a, ha⟩
    by_contra hlt
    unfold createAlarm at ha
    rw [if_pos (by omega)] at ha
    cases ha
  · intro hle
    refine ⟨{ props := p, actionTopicIds := [] }, ?_⟩
    unfold createAlarm
    rw [if_neg (by omega)]

/-- C7: granting image-pull permission twice to the same execution identity
produces the same grant set as granting once, over every starting grant
list; the emitted graph holds exactly one grant per execution role. -/
theorem grant_image_pull_idempotent :
    (∀ (gs : List Grant) (r : String),
      grantImagePull (grantImagePull gs r) r = grantImagePull gs r) ∧
    awsInfraGraph.grants =
      [ { roleId := "BackendServiceExecutionRole"
        , policyName := "AmazonEC2ContainerRegistryReadOnly" }
      , { roleId := "FrontendTaskDefExecutionRole"
        , policyName := "AmazonEC2ContainerRegistryReadOnly" } ] := by
  refine ⟨?_, by decide⟩
  intro gs r
  unfold grantImagePull
  by_cases h : ({ roleId := r, policyName := "AmazonEC2ContainerRegistryReadOnly" } : Grant) ∈ gs
  · simp [h]
  · simp [h]

/-- C8: building the stack with fewer than one availability zone fails with
the network validation error, and the failure is atomic: the builder never
returns a graph, so nothing partial is emitted. -/
theorem zero_availability_zones_fails_atomically (az : Nat) (h : az < 1) :
    buildAwsInfraStack az = .error vpcAzError ∧
    ∀ g, buildAwsInfraStack az ≠ .ok g := by
  have herr : buildAwsInfraStack az = .error vpcAzError := by
    unfold buildAwsInfraStack buildVpc
    rw [if_pos h]
  exact ⟨herr, fun g hg => by rw [herr] at hg; cases hg⟩

/-- C8 witness: requesting zero availability zones fails construction and
emits no graph. -/
theorem zero_availability_zones_fails_atomically_witness :
    buildAwsInfraStack 0 = .error vpcAzError ∧
    ∀ g, buildAwsInfraStack 0 ≠ .ok g :=
  zero_availability_zones_fails_atomically 0 (by decide)

/-- C9: the standalone frontend workload is exposed directly: placed in a
public subdivision with a public IP, its security group allows all
outbound traffic and admits inbound TCP on port 80 from every IPv4 source. -/
theorem frontend_workload_publicly_exposed :
    frontendService.kind = .standalone true .publicSubnet ["FrontendSecurityGroup"] ∧
    awsInfraGraph.workloads = [backendService.1, frontendService] ∧
    awsInfraGraph.securityGroups = [frontendSecurityGroup] ∧
    frontendSecurityGroup.allowAllOutbound = true ∧
    awsInfraGraph.securityRules.filter (fun r => r.targetId == "FrontendSecurityGroup") =
      [ { targetId := "FrontendSecurityGroup", source := .anyIpv4, protocol := "tcp"
        , port := 80, description := "Allow HTTP from public" } ] := by
  decide

/-- C10: for every database-query error, the /api/hello handler responds
with HTTP status 500 and a JSON body whose error field is "Database error"
and whose detail field carries the error's message; it does not return the
success shape. -/
theorem api_hello_error_path (msg : String) :
    (apiHelloHandler (.failure msg)).status = 500 ∧
    (apiHelloHandler (.failure msg)).body.lookup "error" = some "Database error" ∧
    (apiHelloHandler (.failure msg)).body.lookup "detail" = some msg ∧
    (apiHelloHandler (.failure msg)).body.lookup "message" = none := by
  refine ⟨rfl, rfl, rfl, rfl⟩

end AwsApp
